import Mathlib

/-!
Shallow embedding of the copy-allocation core of the Neo-Librus library backend
(Django project, `app/domain/models.py` and `app/api/loans.py`).

Counters are modelled as `Int` (Python integers are unbounded; the interesting
questions are about the values staying in `[0, total_copies]`), timestamps as
`Int` seconds, and the database row for an edition as the `Edition` value
itself (`self.save()` persists the in-memory object; one logical clock reading
per operation).
-/

namespace NeoLibrus

/-- Embedding of `app/domain/models.py` `Edition`: the per-edition copy pool
(`total_copies`, `available_copies`) together with the other row fields
(`book` foreign key, `isbn`, `year`, `publisher`, `info`). -/
structure Edition where
  pk : Nat
  book_id : Nat
  isbn : String
  year : Int
  publisher : String
  total_copies : Int
  available_copies : Int
  info : Option String
deriving DecidableEq, Repr

/-- Embedding of `Edition.reserve_copy`: if `available_copies > 0`, decrement
it by one, save, and return `True`; otherwise return `False` without change.
The returned pair is (return value, edition row as persisted). -/
def Edition.reserve_copy (e : Edition) : Bool × Edition :=
  if e.available_copies > 0 then
    (true, { e with available_copies := e.available_copies - 1 })
  else
    (false, e)

/-- Embedding of `Edition.release_copy`: if `available_copies < total_copies`,
increment it by one and save; otherwise do nothing. The Python method contains
no `raise` and returns `None`, so the embedding is a total function on rows. -/
def Edition.release_copy (e : Edition) : Edition :=
  if e.available_copies < e.total_copies then
    { e with available_copies := e.available_copies + 1 }
  else
    e

/-- The pool invariant from the specification: `0 ≤ availableCopies ≤ totalCopies`. -/
def poolInvariant (e : Edition) : Prop :=
  0 ≤ e.available_copies ∧ e.available_copies ≤ e.total_copies

instance (e : Edition) : Decidable (poolInvariant e) :=
  inferInstanceAs (Decidable (0 ≤ e.available_copies ∧ e.available_copies ≤ e.total_copies))

/-- A pool operation: a claim (`reserve_copy`) or a release (`release_copy`). -/
inductive PoolOp where
  | claim
  | release
deriving DecidableEq, Repr

/-- Apply one pool operation to an edition row (the claim's boolean result is
dropped; only the state matters for the invariant). -/
def applyPoolOp (op : PoolOp) (e : Edition) : Edition :=
  match op with
  | .claim => (e.reserve_copy).2
  | .release => e.release_copy

/-- Apply a sequence of pool operations left to right. -/
def applyPoolOps (ops : List PoolOp) (e : Edition) : Edition :=
  ops.foldl (fun s op => applyPoolOp op s) e

/-- Sample edition row: 1 of 2 copies available. -/
def sampleEdition : Edition :=
  { pk := 1, book_id := 1, isbn := "9780306406157", year := 2001, publisher := "PWN",
    total_copies := 2, available_copies := 1, info := none }

/-- Sample edition row with no available copies. -/
def emptyEdition : Edition :=
  { pk := 2, book_id := 1, isbn := "9780306406158", year := 2005, publisher := "PWN",
    total_copies := 3, available_copies := 0, info := none }

/-- Sample edition row that is full: `available_copies = total_copies`. -/
def fullEdition : Edition :=
  { pk := 3, book_id := 2, isbn := "9781861972712", year := 2010, publisher := "Helion",
    total_copies := 2, available_copies := 2, info := none }

/-- Sample edition row holding its last available copy. -/
def lastCopyEdition : Edition :=
  { pk := 4, book_id := 2, isbn := "9781861972713", year := 2012, publisher := "Helion",
    total_copies := 1, available_copies := 1, info := none }

theorem reserve_copy_preserves (e : Edition) (h : poolInvariant e) :
    poolInvariant (e.reserve_copy).2 := by
  rcases h with ⟨h0, h1⟩
  unfold Edition.reserve_copy
  split <;> constructor <;> simp_all <;> omega

theorem release_copy_preserves (e : Edition) (h : poolInvariant e) :
    poolInvariant e.release_copy := by
  rcases h with ⟨h0, h1⟩
  unfold Edition.release_copy
  split <;> constructor <;> simp_all <;> omega

theorem applyPoolOp_preserves (op : PoolOp) (e : Edition) (h : poolInvariant e) :
    poolInvariant (applyPoolOp op e) := by
  cases op with
  | claim => exact reserve_copy_preserves e h
  | release => exact release_copy_preserves e h

theorem applyPoolOps_preserves (ops : List PoolOp) (e : Edition) (h : poolInvariant e) :
    poolInvariant (applyPoolOps ops e) := by
  induction ops generalizing e with
  | nil => exact h
  | cons op rest ih =>
    have hstep : poolInvariant (applyPoolOp op e) := applyPoolOp_preserves op e h
    simpa [applyPoolOps, List.foldl] using ih (applyPoolOp op e) hstep

/-- C1: for every edition pool satisfying `0 ≤ available_copies ≤ total_copies`,
each `reserve_copy` and each `release_copy` preserves the invariant, and no
sequence of these operations can drive `available_copies` below zero or above
`total_copies`. -/
theorem pool_invariant_preserved (e : Edition) (h : poolInvariant e) :
    poolInvariant (e.reserve_copy).2 ∧ poolInvariant e.release_copy ∧
      ∀ ops : List PoolOp, poolInvariant (applyPoolOps ops e) :=
  ⟨reserve_copy_preserves e h, release_copy_preserves e h,
    fun ops => applyPoolOps_preserves ops e h⟩

/-- Witness for C1 at a concrete pool and a concrete operation sequence. -/
theorem pool_invariant_preserved_witness :
    poolInvariant sampleEdition ∧
      poolInvariant (applyPoolOps [PoolOp.claim, PoolOp.release, PoolOp.claim] sampleEdition) :=
  ⟨by decide, (pool_invariant_preserved sampleEdition (by decide)).2.2 _⟩

/-- C3: `reserve_copy` tests `available_copies > 0`; if the test passes it
decrements `available_copies` by exactly one (all other row fields unchanged)
and returns `true`; if `available_copies = 0` it returns `false` and leaves the
row entirely unchanged. -/
theorem reserve_copy_functional_spec (e : Edition) :
    (0 < e.available_copies →
      e.reserve_copy = (true, { e with available_copies := e.available_copies - 1 })) ∧
    (e.available_copies = 0 → e.reserve_copy = (false, e)) := by
  constructor
  · intro h
    unfold Edition.reserve_copy
    rw [if_pos h]
  · intro h
    unfold Edition.reserve_copy
    rw [if_neg (by omega)]

/-- Witness for C3: the success branch on a pool with one copy, and the failure
branch on an exhausted pool. -/
theorem reserve_copy_functional_spec_witness :
    sampleEdition.reserve_copy = (true, { sampleEdition with available_copies := 0 }) ∧
      emptyEdition.reserve_copy = (false, emptyEdition) :=
  ⟨(reserve_copy_functional_spec sampleEdition).1 (by decide),
   (reserve_copy_functional_spec emptyEdition).2 (by decide)⟩

/-- Modelled from the spec: `release(editionId) -> Result<Ok, AlreadyFull>`,
which signals an `AlreadyFull` error when the pool is already at
`available_copies = total_copies` instead of silently ignoring the call.
Stated only to be compared with the source's `Edition.release_copy`. -/
def releaseAlreadyFullSpec (e : Edition) : Except Unit Edition :=
  if e.available_copies < e.total_copies then
    Except.ok { e with available_copies := e.available_copies + 1 }
  else
    Except.error ()

/-- C5 counterexample: on a concrete full pool the source's `release_copy`
returns normally with the row unchanged — the release is silently ignored and
no `AlreadyFull` error is signalled (the Python method has no raise path),
while the specification's release would signal `AlreadyFull` here. -/
theorem release_copy_full_pool_silently_ignored :
    fullEdition.available_copies = fullEdition.total_copies ∧
      fullEdition.release_copy = fullEdition ∧
      releaseAlreadyFullSpec fullEdition = Except.error () := by
  refine ⟨by decide, ?_, rfl⟩
  unfold Edition.release_copy
  rw [if_neg (by decide)]

/-- C5 amended: for every pool already at `available_copies = total_copies`,
`release_copy` is a silent no-op — the counter stays at `total_copies`, the row
is unchanged, and no error is signalled. -/
theorem release_copy_full_pool_noop (e : Edition)
    (h : e.available_copies = e.total_copies) : e.release_copy = e := by
  unfold Edition.release_copy
  rw [if_neg (by omega)]

/-- Witness for the amended C5 on a concrete full pool. -/
theorem release_copy_full_pool_noop_witness :
    fullEdition.available_copies = fullEdition.total_copies ∧
      fullEdition.release_copy = fullEdition :=
  ⟨by decide, release_copy_full_pool_noop fullEdition (by decide)⟩

/-- Embedding of `app/domain/models.py` `Reservation`: a user's reservation of
a book edition. `pk` is the database primary key (`None` until the row is
inserted); `created_at` is Django's `auto_now_add` timestamp. The model has no
other fields — in particular no `closed_at` or `close_reason`. -/
structure Reservation where
  pk : Option Nat
  user_id : Nat
  edition_id : Nat
  created_at : Int
  expires_at : Int
deriving DecidableEq, Repr

/-- Errors surfaced by `Reservation.save`: the `ValueError` raised when
`reserve_copy` returns `False`, and a failure of the final `super().save()`
database write (the storage layer, modelled by the `persistOk` flag). -/
inductive SaveError where
  | noCopies
  | storage
deriving DecidableEq, Repr

/-- 48 hours in seconds, the fixed reservation expiry policy. -/
def hours48 : Int := 48 * 3600

/-- Embedding of `Reservation.save`. On a fresh object (`pk` not set) it first
calls `self.edition.reserve_copy()` — which itself saves the decremented
edition row — raising `ValueError` when that returns `False`; then it sets
`expires_at = now + 48h` and finally calls `super().save()`, which inserts the
row, assigns the primary key and the `auto_now_add` creation timestamp. On an
already-persisted object only `super().save()` runs. `persistOk` models
whether that final database write succeeds; the edition state returned is the
state as already persisted by `reserve_copy`, whatever the final write does. -/
def Reservation.save (now : Int) (persistOk : Bool) (newPk : Nat)
    (r : Reservation) (e : Edition) : Except SaveError Reservation × Edition :=
  if r.pk.isNone then
    match e.reserve_copy with
    | (false, e1) => (Except.error SaveError.noCopies, e1)
    | (true, e1) =>
      let r1 : Reservation := { r with expires_at := now + hours48 }
      if persistOk then
        (Except.ok { r1 with pk := some newPk, created_at := now }, e1)
      else
        (Except.error SaveError.storage, e1)
  else
    if persistOk then (Except.ok r, e) else (Except.error SaveError.storage, e)

/-- A fresh, not-yet-persisted reservation object. -/
def freshReservation : Reservation :=
  { pk := none, user_id := 9, edition_id := 4, created_at := 0, expires_at := 0 }

/-- An already-persisted reservation row. -/
def persistedReservation : Reservation :=
  { pk := some 11, user_id := 9, edition_id := 1, created_at := 100, expires_at := 100 + hours48 }

/-- C4 counterexample: a concrete reservation creation in which the final
database write fails after a successful claim. The error is surfaced with the
edition pool still decremented from 1 to 0 — no compensating `release_copy`
runs anywhere in `Reservation.save`, so the pool is left decremented without a
corresponding live record. -/
theorem save_storage_failure_leaves_pool_decremented :
    lastCopyEdition.available_copies = 1 ∧
      Reservation.save 0 false 7 freshReservation lastCopyEdition =
        (Except.error SaveError.storage, { lastCopyEdition with available_copies := 0 }) := by
  constructor
  · decide
  · rfl

/-- C4 amended: if persistence fails after a successful pool claim during
reservation creation, no compensating release occurs — the `StorageError` is
surfaced with the pool still decremented by exactly one. -/
theorem save_storage_failure_no_rollback (now : Int) (newPk : Nat)
    (r : Reservation) (e : Edition) (hpk : r.pk = none) (h : 0 < e.available_copies) :
    Reservation.save now false newPk r e =
      (Except.error SaveError.storage,
        { e with available_copies := e.available_copies - 1 }) := by
  unfold Reservation.save
  rw [hpk]
  simp only [Option.isNone_none, if_true]
  unfold Edition.reserve_copy
  rw [if_pos h]
  rfl

/-- Witness for the amended C4 at a concrete failing creation. -/
theorem save_storage_failure_no_rollback_witness :
    freshReservation.pk = none ∧ 0 < lastCopyEdition.available_copies ∧
      Reservation.save 5 false 7 freshReservation lastCopyEdition =
        (Except.error SaveError.storage, { lastCopyEdition with available_copies := 0 }) :=
  ⟨rfl, by decide,
    save_storage_failure_no_rollback 5 7 freshReservation lastCopyEdition rfl (by decide)⟩

/-- C9: every successfully created reservation (fresh object, so the creation
branch of `save` runs) has `expires_at` equal to its `created_at` plus exactly
48 hours: both are assigned from the same operation clock reading `now`. -/
theorem reservation_created_expires_48h (now : Int) (persistOk : Bool) (newPk : Nat)
    (r : Reservation) (e : Edition) (hpk : r.pk = none) :
    ∀ r', (Reservation.save now persistOk newPk r e).1 = Except.ok r' →
      r'.expires_at = r'.created_at + hours48 := by
  intro r' hr'
  unfold Reservation.save at hr'
  rw [hpk] at hr'
  simp only [Option.isNone_none, if_true] at hr'
  unfold Edition.reserve_copy at hr'
  by_cases h : e.available_copies > 0
  · rw [if_pos h] at hr'
    cases persistOk with
    | false => simp at hr'
    | true =>
      simp only [if_true] at hr'
      cases hr'
      rfl
  · rw [if_neg h] at hr'
    simp at hr'

/-- The reservation record produced by a concrete successful creation at time 5. -/
def createdSampleReservation : Reservation :=
  { pk := some 7, user_id := 9, edition_id := 4, created_at := 5, expires_at := 5 + hours48 }

/-- Witness for C9 at a concrete successful creation. -/
theorem reservation_created_expires_48h_witness :
    freshReservation.pk = none ∧
      createdSampleReservation.expires_at = createdSampleReservation.created_at + hours48 :=
  ⟨rfl, reservation_created_expires_48h 5 true 7 freshReservation sampleEdition rfl
    createdSampleReservation rfl⟩

/-- C10: saving an already-persisted reservation (`pk` set) runs only the
plain database write: the edition row (in particular `available_copies`) is
untouched and the reservation, `expires_at` included, is not recomputed. -/
theorem resave_no_claim_no_expiry_recompute (now : Int) (persistOk : Bool) (newPk k : Nat)
    (r : Reservation) (e : Edition) (hpk : r.pk = some k) :
    Reservation.save now persistOk newPk r e =
      ((if persistOk then Except.ok r else Except.error SaveError.storage), e) := by
  unfold Reservation.save
  rw [hpk]
  cases persistOk <;> rfl

/-- Witness for C10 at a concrete persisted row. -/
theorem resave_no_claim_no_expiry_recompute_witness :
    persistedReservation.pk = some 11 ∧
      Reservation.save 999 true 7 persistedReservation sampleEdition =
        (Except.ok persistedReservation, sampleEdition) :=
  ⟨rfl, by
    have h := resave_no_claim_no_expiry_recompute 999 true 7 11
      persistedReservation sampleEdition rfl
    simpa using h⟩

/-- Embedding of `Reservation.delete` together with its effect on the stored
rows. The method body is `self.edition.release_copy()` followed by
`super().delete(...)`: the release runs unconditionally and first. Django's
`Model.delete` then removes the row with this primary key and clears the
instance's `pk`; invoked on an instance whose `pk` is already `None` it raises
a `ValueError` — but only after the extra `release_copy` has already run.
The result is (delete outcome, edition row as persisted, remaining rows). -/
def Reservation.deleteRow (r : Reservation) (e : Edition) (db : List Reservation) :
    Except Unit Reservation × Edition × List Reservation :=
  let e1 := e.release_copy
  match r.pk with
  | some k =>
    (Except.ok { r with pk := none }, e1, db.filter (fun x => x.pk != some k))
  | none => (Except.error (), e1, db)

/-- Calling `Reservation.delete` twice on the same in-memory object: the second
call reuses the instance returned by the first (whose `pk` Django cleared). -/
def doubleDelete (r : Reservation) (e : Edition) (db : List Reservation) :
    Except Unit Reservation × Edition × List Reservation :=
  match Reservation.deleteRow r e db with
  | (Except.ok r1, e1, db1) => Reservation.deleteRow r1 e1 db1
  | s => s

/-- An edition with both of its two copies currently allocated. -/
def drainedEdition : Edition :=
  { pk := 1, book_id := 1, isbn := "9780306406157", year := 2001, publisher := "PWN",
    total_copies := 2, available_copies := 0, info := none }

/-- C6 counterexample: on a concrete pool with `total_copies = 2` and
`available_copies = 0`, deleting the same reservation twice increments
`available_copies` by 2 (from 0 to 2), not by 1 as the claim states: the
unconditional `release_copy` runs again on the second call before the
primary-key check fires, and no `AlreadyClosed` result exists in the code. -/
theorem double_delete_double_release_counterexample :
    drainedEdition.available_copies = 0 ∧
      (doubleDelete persistedReservation drainedEdition [persistedReservation]).2.1.available_copies = 2 := by
  constructor
  · decide
  · rfl

/-- C6 amended: `Reservation.delete` releases a copy unconditionally before
touching the row, so calling it twice on the same object releases two copies
whenever the pool stays below `total_copies`; the second call then fails on the
cleared primary key (a `ValueError`, not an `AlreadyClosed` result) — the pool
gains 2, not 1. -/
theorem double_delete_double_release (r : Reservation) (e : Edition)
    (db : List Reservation) (k : Nat) (hpk : r.pk = some k)
    (h2 : e.available_copies + 2 ≤ e.total_copies) :
    (doubleDelete r e db).2.1.available_copies = e.available_copies + 2 ∧
      (doubleDelete r e db).1 = Except.error () := by
  have h1 : e.release_copy =
      { e with available_copies := e.available_copies + 1 } := by
    unfold Edition.release_copy
    rw [if_pos (by omega)]
  have h1' : ({ e with available_copies := e.available_copies + 1 } : Edition).release_copy =
      { e with available_copies := e.available_copies + 2 } := by
    unfold Edition.release_copy
    simp only
    rw [if_pos (by omega)]
    congr 1
    omega
  unfold doubleDelete Reservation.deleteRow
  rw [hpk]
  simp only [h1, h1']
  constructor
  · first
    | rfl
    | trivial
  · first
    | rfl
    | trivial

/-- Witness for the amended C6 at the concrete drained pool. -/
theorem double_delete_double_release_witness :
    persistedReservation.pk = some 11 ∧
      drainedEdition.available_copies + 2 ≤ drainedEdition.total_copies ∧
      (doubleDelete persistedReservation drainedEdition []).2.1.available_copies =
        drainedEdition.available_copies + 2 ∧
      (doubleDelete persistedReservation drainedEdition []).1 = Except.error () :=
  ⟨rfl, by decide,
    double_delete_double_release persistedReservation drainedEdition [] 11 rfl (by decide)⟩

/-- C7 counterexample: a concrete store holding exactly one reservation row.
`Reservation.delete` removes the row outright — the store is empty afterwards,
so the record is not retained for history; moreover the `Reservation` model has
no `closed_at` or `close_reason` field that a close could set. -/
theorem delete_removes_record_counterexample :
    (Reservation.deleteRow persistedReservation sampleEdition [persistedReservation]).2.2 =
      ([] : List Reservation) := by
  rfl

/-- C7 amended: `Reservation.delete` permanently deletes the allocation record
(after releasing a copy back to the pool): afterwards no stored row carries the
deleted primary key; nothing is merely marked closed, and no `closed_at` or
`close_reason` exists on the model. -/
theorem delete_removes_record (r : Reservation) (e : Edition)
    (db : List Reservation) (k : Nat) (hpk : r.pk = some k) :
    ((Reservation.deleteRow r e db).2.2).all (fun x => x.pk != some k) = true ∧
      (Reservation.deleteRow r e db).2.1 = e.release_copy := by
  unfold Reservation.deleteRow
  rw [hpk]
  refine ⟨?_, rfl⟩
  simp only [List.all_eq_true, List.mem_filter]
  intro x hx
  exact hx.2

/-- Witness for the amended C7 at a concrete store. -/
theorem delete_removes_record_witness :
    persistedReservation.pk = some 11 ∧
      ((Reservation.deleteRow persistedReservation sampleEdition
          [persistedReservation]).2.2).all (fun x => x.pk != some 11) = true :=
  ⟨rfl, (delete_removes_record persistedReservation sampleEdition
    [persistedReservation] 11 rfl).1⟩

/-- One interleaving of two concurrent `reserve_copy` calls on the same
edition row, under the Django read-modify-write pattern: each request handler
holds its own in-memory copy of the row, so when both load the row before
either `save()` commits, both observe the same `available_copies`; each then
tests its stale value, writes back its own decrement, and the later `save`
overwrites the earlier one. Schedule modelled: read 1, read 2, test-and-write 1,
test-and-write 2. -/
def interleavedTwoClaims (e : Edition) : Bool × Bool × Edition :=
  let a1 := e.available_copies
  let a2 := e.available_copies
  let s1 := if a1 > 0 then (true, { e with available_copies := a1 - 1 })
            else (false, e)
  let s2 := if a2 > 0 then (true, { s1.2 with available_copies := a2 - 1 })
            else (false, s1.2)
  (s1.1, s2.1, s2.2)

/-- C2: on a concrete pool with `available_copies = 1`, the interleaving in
which both handlers load the row before either saves makes BOTH claims
succeed — two successes for one copy (over-allocation), not one success and
one failure. Run sequentially the same two calls do yield one success and one
failure, so the defect is precisely the lack of atomicity. -/
theorem two_concurrent_claims_both_succeed :
    lastCopyEdition.available_copies = 1 ∧
      interleavedTwoClaims lastCopyEdition =
        (true, true, { lastCopyEdition with available_copies := 0 }) ∧
      ((lastCopyEdition.reserve_copy).2.reserve_copy).1 = false := by
  refine ⟨by decide, rfl, rfl⟩

/-- Embedding of the `Loan` row (defined by migration `0001_initial.py`; the
model class itself is absent from the current `models.py`). -/
structure Loan where
  pk : Nat
  borrower_id : Nat
  book_id : Nat
  borrowed_at : Int
  due_at : Int
  returned_at : Option Int
deriving DecidableEq, Repr

/-- The request user as seen by `app/api/loans.py`: identity plus the two
checks the endpoint makes (`is_authenticated`, `has_perms(["domain.add_loan"])`). -/
structure ApiUser where
  pk : Nat
  is_authenticated : Bool
  has_add_loan_perm : Bool
deriving DecidableEq, Repr

/-- The `LoanIn` payload schema of `app/api/loans.py`. -/
structure LoanIn where
  book_id : Nat
  due_at : Int
deriving DecidableEq, Repr

/-- Errors raised by the `create_loan` endpoint: `PermissionDenied` and
`ValueError`, each carrying the message from the source. -/
inductive ApiError where
  | permissionDenied (msg : String)
  | valueError (msg : String)
deriving DecidableEq, Repr

/-- The store visible to the loans endpoint: existing book ids, loan rows, and
the edition rows with their copy pools (which `create_loan` never touches). -/
structure LoanStore where
  book_ids : List Nat
  loans : List Loan
  editions : List Edition
deriving DecidableEq, Repr

/-- Embedding of `create_loan` in `app/api/loans.py`: authentication check,
permission check, `due_at` strictly-future validation, book-existence check,
then `repo.create(borrower_id, book_id, due_at)` which inserts a new loan row
(`borrowed_at` is `auto_now_add`, `returned_at` starts null). `newPk` is the
primary key the database assigns. No branch reads or writes any edition's
`available_copies`. -/
def create_loan (now : Int) (newPk : Nat) (user : Option ApiUser) (payload : LoanIn)
    (st : LoanStore) : Except ApiError Loan × LoanStore :=
  match user with
  | none => (Except.error (ApiError.permissionDenied "Authentication required"), st)
  | some u =>
    if !u.is_authenticated then
      (Except.error (ApiError.permissionDenied "Authentication required"), st)
    else if !u.has_add_loan_perm then
      (Except.error (ApiError.permissionDenied "Insufficient permissions"), st)
    else if payload.due_at ≤ now then
      (Except.error (ApiError.valueError "due_at must be a future datetime"), st)
    else if !(st.book_ids.contains payload.book_id) then
      (Except.error (ApiError.valueError "Book not found"), st)
    else
      let loan : Loan := { pk := newPk, borrower_id := u.pk, book_id := payload.book_id,
                           borrowed_at := now, due_at := payload.due_at, returned_at := none }
      (Except.ok loan, { st with loans := st.loans ++ [loan] })

/-- An authenticated member holding the `domain.add_loan` permission. -/
def memberUser : ApiUser := { pk := 9, is_authenticated := true, has_add_loan_perm := true }

/-- A store with one book (id 3) and one edition pool with copies available. -/
def loanStore0 : LoanStore :=
  { book_ids := [3], loans := [], editions := [sampleEdition] }

/-- A valid borrow payload: existing book, strictly future due date. -/
def okPayload : LoanIn := { book_id := 3, due_at := 100 }

/-- The loan row produced by the concrete successful borrow below. -/
def okLoan : Loan :=
  { pk := 1, borrower_id := 9, book_id := 3, borrowed_at := 0, due_at := 100,
    returned_at := none }

/-- C8 counterexample: a concrete successful borrow (existing book, future
due date, authorized member) returns the new open loan row but leaves every
edition's pool — `sampleEdition` with `available_copies = 1` included —
completely unchanged: `create_loan` never decrements `available_copies`. -/
theorem create_loan_does_not_decrement_pool :
    (create_loan 0 1 (some memberUser) okPayload loanStore0).1 = Except.ok okLoan ∧
      (create_loan 0 1 (some memberUser) okPayload loanStore0).2.editions = [sampleEdition] ∧
      sampleEdition.available_copies = 1 := by
  refine ⟨rfl, rfl, by decide⟩

/-- C8 amended: `create_loan` never modifies any edition pool (the editions
component of the store is unchanged by every call); a call whose `due_at` is
not strictly after `now` fails with the `ValueError` for the due date and
mutates nothing; and every successful call appends exactly one new loan row,
open (`returned_at = null`). -/
theorem create_loan_spec (now : Int) (newPk : Nat) (user : Option ApiUser)
    (p : LoanIn) (st : LoanStore) :
    (create_loan now newPk user p st).2.editions = st.editions ∧
    (∀ u, user = some u → u.is_authenticated = true → u.has_add_loan_perm = true →
      p.due_at ≤ now →
      create_loan now newPk user p st =
        (Except.error (ApiError.valueError "due_at must be a future datetime"), st)) ∧
    (∀ ln, (create_loan now newPk user p st).1 = Except.ok ln →
      ln.returned_at = none ∧
        (create_loan now newPk user p st).2.loans = st.loans ++ [ln]) := by
  refine ⟨?_, ?_, ?_⟩
  · cases user with
    | none => rfl
    | some u =>
      show (if (!u.is_authenticated) = true then _ else _ : Except ApiError Loan × LoanStore).2.editions = _
      split
      · rfl
      · split
        · rfl
        · split
          · rfl
          · split
            · rfl
            · rfl
  · intro u hu ha hp hd
    subst hu
    unfold create_loan
    simp [ha, hp, hd]
  · intro ln hln
    cases user with
    | none => simp [create_loan] at hln
    | some u =>
      rw [show create_loan now newPk (some u) p st =
            (if (!u.is_authenticated) = true then
              (Except.error (ApiError.permissionDenied "Authentication required"), st)
            else if (!u.has_add_loan_perm) = true then
              (Except.error (ApiError.permissionDenied "Insufficient permissions"), st)
            else if p.due_at ≤ now then
              (Except.error (ApiError.valueError "due_at must be a future datetime"), st)
            else if (!(st.book_ids.contains p.book_id)) = true then
              (Except.error (ApiError.valueError "Book not found"), st)
            else
              (Except.ok { pk := newPk, borrower_id := u.pk, book_id := p.book_id,
                            borrowed_at := now, due_at := p.due_at, returned_at := none },
                { st with loans := st.loans ++
                    [{ pk := newPk, borrower_id := u.pk, book_id := p.book_id,
                        borrowed_at := now, due_at := p.due_at, returned_at := none }] }))
          from rfl] at hln ⊢
      split at hln
      next h1 => exact absurd hln (by simp)
      next h1 =>
        split at hln
        next h2 => exact absurd hln (by simp)
        next h2 =>
          split at hln
          next h3 => exact absurd hln (by simp)
          next h3 =>
            split at hln
            next h4 => exact absurd hln (by simp)
            next h4 =>
              have hln' : ln = { pk := newPk, borrower_id := u.pk, book_id := p.book_id,
                                 borrowed_at := now, due_at := p.due_at,
                                 returned_at := none } := by
                simpa using hln.symm
              subst hln'
              rw [if_neg h1, if_neg h2, if_neg h3, if_neg h4]
              exact ⟨rfl, rfl⟩

/-- Witness for the amended C8: the due-date validation failure and the
successful borrow, both at concrete inputs. -/
theorem create_loan_spec_witness :
    create_loan 200 1 (some memberUser) okPayload loanStore0 =
        (Except.error (ApiError.valueError "due_at must be a future datetime"), loanStore0) ∧
      okLoan.returned_at = none ∧
      (create_loan 0 1 (some memberUser) okPayload loanStore0).2.loans = [] ++ [okLoan] :=
  ⟨(create_loan_spec 200 1 (some memberUser) okPayload loanStore0).2.1 memberUser rfl rfl rfl
      (by decide),
    (create_loan_spec 0 1 (some memberUser) okPayload loanStore0).2.2 okLoan rfl⟩

end NeoLibrus
